import Mathlib

/-!
Shallow embedding of `create_sqlite_db_v2.py` and `sqlite_server.py`
(fund-record SQLite store plus the SQL façade), with theorems checking the
claims of the specification against the code.

Python values read from JSON / returned by `dict.get` are modelled as
`Option String` (`none` = Python `None`); a record (JSON object) is an
association list from keys to `Option String`.
-/

/-- ASCII whitespace recognised by Python `str.strip()` for the inputs that
occur here (space, tab, newline, carriage return). -/
def isSpaceChar (c : Char) : Bool :=
  c = ' ' || c = '\t' || c = '\n' || c = '\r'

/-- Embedding of Python `str.strip()` on a character list: drop whitespace
from both ends. -/
def trimWS (l : List Char) : List Char :=
  ((l.dropWhile isSpaceChar).reverse.dropWhile isSpaceChar).reverse

/-- Digits of a character list interpreted as a base-10 natural number. -/
def digitsToNat (l : List Char) : Nat :=
  l.foldl (fun acc c => 10 * acc + (c.toNat - '0'.toNat)) 0

/-- The character-level decomposition of a CPython `float(s)` literal:
`ok` records whether the whole (whitespace-trimmed) input matches the
grammar `[sign] digits [. digits] [(e|E) [sign] digits]` with at least one
mantissa digit. -/
structure FloatParse where
  ok : Bool
  neg : Bool
  intDigits : List Char
  fracDigits : List Char
  expNeg : Bool
  expDigits : List Char
deriving DecidableEq

/-- Character-level phase of CPython `float(s)`: split the trimmed input
into sign, integer digits, fraction digits and exponent.  (The special
forms `inf`/`nan` and underscore digit separators, which never arise in
the data of this repository, are not modelled.) -/
def parseFloatParts (s : String) : FloatParse :=
  let l := trimWS s.toList
  let signAndRest : Bool × List Char :=
    match l with
    | '+' :: r => (false, r)
    | '-' :: r => (true, r)
    | r => (false, r)
  let l1 := signAndRest.2
  let ds := l1.takeWhile Char.isDigit
  let l2 := l1.dropWhile Char.isDigit
  let fracAndRest : List Char × List Char :=
    match l2 with
    | '.' :: r => (r.takeWhile Char.isDigit, r.dropWhile Char.isDigit)
    | r => ([], r)
  let fs := fracAndRest.1
  let l3 := fracAndRest.2
  let expPart : Bool × Bool × List Char × List Char :=
    match l3 with
    | 'e' :: r => parseExpPart r
    | 'E' :: r => parseExpPart r
    | r => (false, false, [], r)
  let hasExp := expPart.1
  let eds := expPart.2.2.1
  let l4 := expPart.2.2.2
  let okB := (!ds.isEmpty || !fs.isEmpty) && l4.isEmpty && (!hasExp || !eds.isEmpty)
  { ok := okB, neg := signAndRest.1, intDigits := ds, fracDigits := fs,
    expNeg := expPart.2.1, expDigits := eds }
where
  /-- Exponent tail `[sign] digits`: returns (present, negative, digits, rest). -/
  parseExpPart (r : List Char) : Bool × Bool × List Char × List Char :=
    let signAndRest : Bool × List Char :=
      match r with
      | '+' :: r2 => (false, r2)
      | '-' :: r2 => (true, r2)
      | r2 => (false, r2)
    (true, signAndRest.1, signAndRest.2.takeWhile Char.isDigit,
      signAndRest.2.dropWhile Char.isDigit)

/-- Numeric value of a successful float parse. -/
def partsToRat (p : FloatParse) : Rat :=
  (if p.neg then -1 else 1) *
    ((digitsToNat p.intDigits : Rat) +
      (digitsToNat p.fracDigits : Rat) / (10 : Rat) ^ p.fracDigits.length) *
    (10 : Rat) ^ ((if p.expNeg then -1 else 1) * (digitsToNat p.expDigits : Int))

/-- Embedding of CPython `float(s)` on strings: `none` where `float`
raises `ValueError`, otherwise the exact rational value of the decimal
literal. -/
def pyFloat? (s : String) : Option Rat :=
  let p := parseFloatParts s
  if p.ok then some (partsToRat p) else none

/-- Embedding of the Python call replacing the percent sign by the empty
string: `value.replace` removes every occurrence of the character, not
only a trailing one. -/
def removePercent (s : String) : String :=
  (s.toList.filter (fun c => c ≠ '%')).asString

/-- `clean_percentage_value` (create_sqlite_db_v2.py lines 48-57): absent
values (`None`, the empty string, the literal text "None") become `none`;
otherwise every percent sign is removed (`value.replace`), the result is
stripped, parsed with `float`, and divided by 100; a parse failure is
caught and yields `none`. -/
def clean_percentage_value (value : Option String) : Option Rat :=
  match value with
  | none => none
  | some s =>
    if s = "" ∨ s = "None" then none
    else
      let cleaned := (trimWS (removePercent s).toList).asString
      match pyFloat? cleaned with
      | some q => some (q / 100)
      | none => none

/-- `clean_empty_value` (lines 73-77): `None`, the empty string and the
literal "None" become `none`; everything else passes through unchanged. -/
def clean_empty_value (value : Option String) : Option String :=
  match value with
  | none => none
  | some s => if s = "" ∨ s = "None" then none else some s

/-- `clean_int_to_boolean` (lines 80-87): absent values give the default
(the call sites always use the default "否"); any other value gives "是"
— the `try` body is just `return` and can never raise. -/
def clean_int_to_boolean (value : Option String) (dflt : String := "否") : String :=
  match value with
  | none => dflt
  | some s => if s = "" ∨ s = "None" then dflt else "是"

/-- Definition following the words of the SPEC for claim C4 (not the source):
"strips a trailing percent sign, parses as a decimal number, divides by
100; parse failure yields null"; absent values as in the source. -/
def cleanPercentageSpecWords (value : Option String) : Option Rat :=
  match value with
  | none => none
  | some s =>
    if s = "" ∨ s = "None" then none
    else
      let body :=
        if s.toList.getLast? = some '%' then s.toList.dropLast.asString else s
      match pyFloat? body with
      | some q => some (q / 100)
      | none => none

/-- A JSON input record: an association list from (Chinese) key strings to
values, where a value is `none` for JSON null and `some s` for a string.
Keys are unique, as in a Python dict. -/
abbrev Record : Type := List (String × Option String)

/-- Python `fund_data.get(k)`: `None` both when the key is missing and
when it is present with value null. -/
def recGet (r : Record) (k : String) : Option String :=
  match List.lookup k r with
  | none => none
  | some v => v

/-- Python `fund_data.get(k, d)`: the default only when the key is
missing; a key present with value null still yields `None`. -/
def recGetD (r : Record) (k : String) (d : String) : Option String :=
  match List.lookup k r with
  | none => some d
  | some v => v

/-- One row of the table 基金数据 (create_sqlite_db_v2.py lines 12-41),
restricted to the 24 columns written by `insert_fund_data`.  Lean
identifiers cannot carry the Chinese column names, so each field records
its column in a comment.  `fund_code` (基金代码) and `fund_name`
(基金简称) are `String` because their columns are NOT NULL; all other
TEXT columns are nullable. -/
structure Row where
  fund_code : String          -- 基金代码 (TEXT NOT NULL UNIQUE)
  fund_name : String          -- 基金简称 (TEXT NOT NULL)
  fund_pinyin : Option String -- 基金简拼
  update_date : Option String -- 更新日期
  unit_net_value : Option String -- 单位净值
  cum_net_value : Option String  -- 累计净值
  daily_growth : Option String   -- 日增长率
  week1 : Option String          -- 近1周收益率
  month1 : Option String         -- 近1月收益率
  month3 : Option String         -- 近3月收益率
  month6 : Option String         -- 近6月收益率
  year1 : Option String          -- 近1年收益率
  year2 : Option String          -- 近2年收益率
  year3 : Option String          -- 近3年收益率
  ytd : Option String            -- 今年来收益率
  since_founding : Option String -- 成立来收益率
  issue_date : Option String     -- 发行日期
  purchasable : String           -- 是否可购 (always 是 or 否 here)
  custom2 : Option String        -- 自定义2
  custom3 : Option String        -- 自定义3
  fee : Option String            -- 手续费
  discount : String              -- 折扣 (always 是 or 否 here)
  custom5 : Option String        -- 自定义5
  custom6 : Option String        -- 自定义6
deriving DecidableEq

/-- The table contents, in rowid order. -/
abbrev Store : Type := List Row

/-- The normalized row `insert_fund_data` binds for a record
(create_sqlite_db_v2.py lines 99-133), or `none` when evaluating the
bindings or executing the statement raises:
the accesses `fund_data.get(单位净值, ...)` and `fund_data.get(累计净值,
...)` call `.replace` on their result, which raises `AttributeError` when
the key is explicitly null (the default `""` applies only to a missing
key); binding `None` to the NOT NULL columns 基金代码 or 基金简称 raises
`IntegrityError` at execute.  Either exception reaches the handler at
lines 138-144. -/
def normalizeRow (r : Record) : Option Row :=
  match recGetD r "单位净值" "", recGetD r "累计净值" "" with
  | some unv, some cnv =>
    match recGet r "基金代码", recGet r "基金简称" with
    | some code, some name =>
      some
        { fund_code := code
          fund_name := name
          fund_pinyin := clean_empty_value (recGet r "基金简拼")
          update_date := clean_empty_value (recGet r "更新日期")
          unit_net_value := clean_empty_value (some (removePercent unv))
          cum_net_value := clean_empty_value (some (removePercent cnv))
          daily_growth := clean_empty_value (recGet r "日增长率")
          week1 := clean_empty_value (recGet r "近1周")
          month1 := clean_empty_value (recGet r "近1月")
          month3 := clean_empty_value (recGet r "近3月")
          month6 := clean_empty_value (recGet r "近6月")
          year1 := clean_empty_value (recGet r "近1年")
          year2 := clean_empty_value (recGet r "近2年")
          year3 := clean_empty_value (recGet r "近3年")
          ytd := clean_empty_value (recGet r "今年来")
          since_founding := clean_empty_value (recGet r "成立来")
          issue_date := clean_empty_value (recGet r "发行日期")
          purchasable := clean_int_to_boolean (recGet r "是否可购")
          custom2 := clean_empty_value (recGet r "自定义2")
          custom3 := clean_empty_value (recGet r "自定义3")
          fee := clean_empty_value (recGet r "手续费")
          discount := clean_int_to_boolean (recGet r "折扣")
          custom5 := clean_empty_value (recGet r "自定义5")
          custom6 := clean_empty_value (recGet r "自定义6") }
    | _, _ => none
  | _, _ => none

/-- `INSERT OR REPLACE` against the UNIQUE column 基金代码: the
conflicting row (if any) is deleted and the new row is inserted with a
fresh rowid (at the end). -/
def replaceByCode (s : Store) (row : Row) : Store :=
  s.filter (fun w => w.fund_code != row.fund_code) ++ [row]

/-- `insert_fund_data` (lines 90-144), store effect: on success the row is
committed (INSERT OR REPLACE); on any exception the transaction is rolled
back and the function returns normally, leaving the store unchanged. -/
def insert_fund_data (r : Record) (s : Store) : Store :=
  match normalizeRow r with
  | some row => replaceByCode s row
  | none => s

/-- The console messages printed by one `insert_fund_data` call. -/
inductive LogEntry where
  /-- 正在插入基金数据: code - name -/
  | inserting (code name : Option String) : LogEntry
  /-- 基金数据插入成功：code - name -/
  | success (code name : Option String) : LogEntry
  /-- 插入数据时出错：... followed by 问题数据: record -/
  | failure (record : Record) : LogEntry
deriving DecidableEq

/-- The log produced by `insert_fund_data` for a record (it depends only
on the record, not on the store). -/
def insert_fund_logs (r : Record) : List LogEntry :=
  LogEntry.inserting (recGet r "基金代码") (recGet r "基金简称") ::
    match normalizeRow r with
    | some _ => [LogEntry.success (recGet r "基金代码") (recGet r "基金简称")]
    | none => [LogEntry.failure r]

/-- The bulk-load loop of `main` (create_sqlite_db_v2.py lines 302-306)
over the already-read lines of the input file.  Each line is given as the
outcome of `json.loads`: `some record` when it parses, `none` when
`json.loads` raises.  The loop body has no exception handler, so a raise
from `json.loads` aborts the loop; the Bool result records whether the
loop reached the end of the file. -/
def runLoad : List (Option Record) → Store → Store × Bool
  | [], s => (s, true)
  | none :: _, s => (s, false)
  | some r :: more, s => runLoad more (insert_fund_data r s)

/-- SQLite LIKE matching (default behaviour): percent matches any
sequence, underscore any single character, and letter comparison folds
ASCII case.  Structural recursion on the pattern: a percent tries every
suffix of the text. -/
def likeMatch : List Char → List Char → Bool
  | [], t => t.isEmpty
  | '%' :: p, t => t.tails.any (fun t2 => likeMatch p t2)
  | '_' :: p, t =>
    match t with
    | [] => false
    | _ :: t2 => likeMatch p t2
  | c :: p, t =>
    match t with
    | [] => false
    | d :: t2 => (c.toLower = d.toLower) && likeMatch p t2

/-- `col LIKE pattern` under SQL three-valued logic as used in a WHERE
clause: a NULL column never satisfies the condition. -/
def sqlLike (v : Option String) (pat : String) : Bool :=
  match v with
  | none => false
  | some s => likeMatch pat.toList s.toList

/-- The pattern built by the f-strings in `fuzzy_search_funds` and
`query_fund_data`: the keyword spliced between two percent signs with no
escaping of LIKE metacharacters. -/
def likePattern (kw : String) : String := "%" ++ kw ++ "%"

/-- The WHERE clause of `fuzzy_search_funds` (lines 182-187):
基金简称 LIKE pat OR 基金简拼 LIKE pat OR 基金代码 LIKE pat. -/
def fuzzyMatches (kw : String) (row : Row) : Bool :=
  sqlLike (some row.fund_name) (likePattern kw) ||
    sqlLike row.fund_pinyin (likePattern kw) ||
    sqlLike (some row.fund_code) (likePattern kw)

/-- ORDER BY 基金代码: sort rows by the code string. -/
def sortByCode (s : Store) : Store :=
  List.insertionSort (fun a b => a.fund_code ≤ b.fund_code) s

/-- The 5-column projection returned by `fuzzy_search_funds`:
基金代码, 基金简称, 基金简拼, 单位净值, 日增长率. -/
structure SearchRow where
  fund_code : String
  fund_name : String
  fund_pinyin : Option String
  unit_net_value : Option String
  daily_growth : Option String
deriving DecidableEq

/-- Projection of a table row to the searched columns. -/
def projSearch (row : Row) : SearchRow :=
  { fund_code := row.fund_code, fund_name := row.fund_name,
    fund_pinyin := row.fund_pinyin, unit_net_value := row.unit_net_value,
    daily_growth := row.daily_growth }

/-- `fuzzy_search_funds` (lines 176-192): filter by the three unescaped
LIKE conditions, order by code, project to five columns. -/
def fuzzy_search_funds (kw : String) (s : Store) : List SearchRow :=
  (sortByCode (s.filter (fuzzyMatches kw))).map projSearch

/-- The keyword branch of `query_fund_data` (lines 159-162):
SELECT * WHERE 基金简称 LIKE pat ORDER BY 基金代码, with the same
unescaped pattern construction. -/
def query_fund_data_keyword (kw : String) (s : Store) : Store :=
  sortByCode (s.filter (fun row => sqlLike (some row.fund_name) (likePattern kw)))

/-- Python `str.ljust(w)` as produced by the format spec `{x:<w}`. -/
def pyLjust (s : String) (w : Nat) : String :=
  s ++ (List.replicate (w - s.length) ' ').asString

/-- Evaluation of the f-string piece `{daily_growth_rate:.2%}` in
`display_search_results` (line 234).  The value read back from the TEXT
column 日增长率 is a Python `str` whenever it is not NULL, and CPython
raises `ValueError` when a `str` is formatted with the numeric format
spec `.2%`; only the `None` branch (placeholder "N/A") succeeds. -/
def formatDailyGrowth : Option String → Except String String
  | none => Except.ok "N/A"
  | some _ =>
    Except.error "Unknown format code \x27%\x27 for object of type \x27str\x27"

/-- Evaluation of `{unit_net_value:.4f}` (line 236): same situation, the
format code `f` is invalid for a Python `str`. -/
def formatUnitNetValue : Option String → Except String String
  | none => Except.ok "N/A"
  | some _ =>
    Except.error "Unknown format code \x27f\x27 for object of type \x27str\x27"

/-- One table line of `display_search_results` (lines 230-241): growth
rate formatted first, then net value, then the name truncated to 28
characters plus an ellipsis when longer than 30. -/
def searchResultLine (row : SearchRow) : Except String String := do
  let growthDisplay ← formatDailyGrowth row.daily_growth
  let netValueDisplay ← formatUnitNetValue row.unit_net_value
  let displayName :=
    if row.fund_name.length > 30 then (row.fund_name.toList.take 28).asString ++ "..."
    else row.fund_name
  pure (pyLjust row.fund_code 10 ++ " " ++ pyLjust displayName 30 ++ " " ++
    pyLjust netValueDisplay 10 ++ " " ++ pyLjust growthDisplay 10)

/-- `display_search_results` (lines 219-241) as the list of printed lines;
an uncaught exception from a row is the `Except.error` case. -/
def display_search_results (results : List SearchRow) : Except String (List String) :=
  if results.isEmpty then Except.ok ["没有找到匹配的基金"]
  else do
    let header :=
      [ "找到 " ++ toString results.length ++ " 个匹配的基金：",
        (List.replicate 80 '=').asString,
        pyLjust "基金代码" 10 ++ " " ++ pyLjust "基金简称" 30 ++ " " ++
          pyLjust "单位净值" 10 ++ " " ++ pyLjust "日增长率" 10,
        (List.replicate 80 '-').asString ]
    let rows ← results.mapM searchResultLine
    pure (header ++ rows)

/-- Splitting step for Python `query.split(";")`, applied by `foldr`: a
semicolon starts a new chunk, any other character is prepended to the
current first chunk. -/
def pySplitStep (c : Char) (acc : List (List Char)) : List (List Char) :=
  if c = ';' then [] :: acc
  else
    match acc with
    | [] => [[c]]
    | a :: more => (c :: a) :: more

/-- Python `query.split(";")` on the character level. -/
def pySplitSemi (l : List Char) : List (List Char) :=
  l.foldr pySplitStep [[]]

/-- `statements = [stmt.strip() for stmt in query.split(";") if stmt.strip()]`
(sqlite_server.py line 56). -/
def splitStatements (query : String) : List String :=
  (((pySplitSemi query.toList).map trimWS).filter (fun l => l ≠ [])).map List.asString

/-- What one `cursor.execute(statement)` can produce: a result set
(`cursor.description` with rows), a statement with no result set (its
`rowcount`), or a raised exception with its message. -/
inductive StmtResult where
  | resultSet (cols : List String) (rows : List (List (Option String))) : StmtResult
  | modified (rowcount : Int) : StmtResult
  | failed (msg : String) : StmtResult

/-- The text appended to `results` for one statement (lines 61-90): CSV
with a header line for a result set ("NULL" for nulls, column names alone
when there are no rows), a success message with the row count otherwise,
and an inline error message when the statement raised. -/
def segmentOf (stmt : String) : StmtResult → String
  | StmtResult.resultSet cols rows =>
    let formattedRows :=
      rows.map (fun row =>
        String.intercalate "," (row.map (fun v =>
          match v with
          | none => "NULL"
          | some x => x)))
    if formattedRows = [] then String.intercalate "," cols
    else String.intercalate "\n" (String.intercalate "," cols :: formattedRows)
  | StmtResult.modified rowcount => "查询执行成功。影响行数: " ++ toString rowcount
  | StmtResult.failed msg => "执行语句 \x27" ++ stmt ++ "\x27 出错: " ++ msg

/-- The per-statement loop (lines 59-90), parametrised by the database
engine: `step` consumes the engine state and a statement and returns the
statement outcome with the next state.  The loop records every executed
statement with its outcome; an inner failure is caught and the loop
continues with the remaining statements. -/
def runStatements {σ : Type} (step : σ → String → StmtResult × σ) :
    List String → σ → List (String × StmtResult) × σ
  | [], s => ([], s)
  | stmt :: more, s =>
    let r := step s stmt
    let tail2 := runStatements step more r.2
    ((stmt, r.1) :: tail2.1, tail2.2)

/-- `execute_sql_internal` (lines 34-96) for an open connection: split the
query on semicolons, run each statement, and return the single combined
text joining every per-statement segment with the separator. -/
def execute_sql_internal {σ : Type} (step : σ → String → StmtResult × σ)
    (query : String) (s : σ) : List String × σ :=
  let run := runStatements step (splitStatements query) s
  ([String.intercalate "\n---\n" (run.1.map (fun p => segmentOf p.1 p.2))], run.2)

/-! ### Helper lemmas -/

/-- `clean_percentage_value` on a non-absent value is the parse of the
percent-stripped, whitespace-trimmed text, divided by 100. -/
theorem clean_percentage_value_some (s : String) (h1 : ¬(s = "" ∨ s = "None")) :
    clean_percentage_value (some s) =
      (pyFloat? ((trimWS (removePercent s).toList).asString)).map (fun q => q / 100) := by
  simp only [clean_percentage_value, if_neg h1]
  cases pyFloat? ((trimWS (removePercent s).toList).asString) <;> rfl

/-- Evaluation of the parser at "12.5". -/
theorem pyFloat_twelve_point_five : pyFloat? "12.5" = some (25 / 2) := by
  have hp : parseFloatParts "12.5" =
      { ok := true, neg := false, intDigits := ['1', '2'], fracDigits := ['5'],
        expNeg := false, expDigits := [] } := by decide
  have h1 : digitsToNat ['1', '2'] = 12 := rfl
  have h2 : digitsToNat ['5'] = 5 := rfl
  have h3 : digitsToNat ([] : List Char) = 0 := rfl
  simp [pyFloat?, hp, partsToRat, h1, h2, h3]
  norm_num

/-- Evaluation of the parser at "1". -/
theorem pyFloat_one : pyFloat? "1" = some 1 := by
  have hp : parseFloatParts "1" =
      { ok := true, neg := false, intDigits := ['1'], fracDigits := [],
        expNeg := false, expDigits := [] } := by decide
  have h1 : digitsToNat ['1'] = 1 := rfl
  have h3 : digitsToNat ([] : List Char) = 0 := rfl
  simp [pyFloat?, hp, partsToRat, h1, h3]

/-! ### Claim theorems -/

/-- C4 counterexample: the claim says a TRAILING percent sign is stripped
and any other input whose parse fails yields null, so on "%1" (percent
not trailing, "%1" itself unparsable) it predicts null; the code instead
removes EVERY percent sign (`value.replace`), parses "1" and returns
0.01.  `cleanPercentageSpecWords` is the claim read literally. -/
theorem claim_C4_counterexample :
    clean_percentage_value (some "%1") = some (1 / 100) ∧
      cleanPercentageSpecWords (some "%1") = none := by
  constructor
  · have hc : (trimWS (removePercent "%1").toList).asString = "1" := by decide
    rw [clean_percentage_value_some "%1" (by decide), hc, pyFloat_one]
    norm_num
  · have hok : (parseFloatParts "%1").ok = false := by decide
    simp [cleanPercentageSpecWords, pyFloat?, hok]

/-- C4 (amended): `clean_percentage_value` is total and never raises; it
returns null for null, the empty string and the literal "None";
otherwise it removes every percent sign (not only a trailing one), strips
whitespace, parses the remainder as a decimal number and divides by 100;
every input whose parse fails yields null; cleanPercentage("12.5%") =
0.125, cleanPercentage("abc") = null, cleanPercentage(None) = null. -/
theorem claim_C4 :
    clean_percentage_value none = none ∧
      clean_percentage_value (some "") = none ∧
      clean_percentage_value (some "None") = none ∧
      clean_percentage_value (some "12.5%") = some (125 / 1000) ∧
      clean_percentage_value (some "abc") = none ∧
      (∀ s : String,
        pyFloat? ((trimWS (removePercent s).toList).asString) = none →
          clean_percentage_value (some s) = none) := by
  refine ⟨rfl, by simp [clean_percentage_value], by simp [clean_percentage_value], ?_, ?_, ?_⟩
  · have hc : (trimWS (removePercent "12.5%").toList).asString = "12.5" := by decide
    rw [clean_percentage_value_some "12.5%" (by decide), hc, pyFloat_twelve_point_five]
    norm_num
  · have hc : (trimWS (removePercent "abc").toList).asString = "abc" := by decide
    have hok : (parseFloatParts "abc").ok = false := by decide
    rw [clean_percentage_value_some "abc" (by decide), hc]
    simp [pyFloat?, hok]
  · intro s h
    by_cases habs : s = "" ∨ s = "None"
    · rcases habs with h1 | h1 <;> simp [clean_percentage_value, h1]
    · rw [clean_percentage_value_some s habs, h]
      rfl

/-- C4 witness: the parse-failure clause applied at the concrete input
"zzz". -/
theorem claim_C4_witness : clean_percentage_value (some "zzz") = none :=
  claim_C4.2.2.2.2.2 "zzz" (by decide)

/-- C5: `clean_int_to_boolean` returns the default 否 exactly on absent
values (null, empty string, literal "None") and 是 on every other value
whatever its content; hence the two flag columns 是否可购 and 折扣 of
every successfully normalized row hold one of the two strings and never
null. -/
theorem claim_C5 :
    clean_int_to_boolean none = "否" ∧
      clean_int_to_boolean (some "1") = "是" ∧
      (∀ v : Option String,
        clean_int_to_boolean v = "是" ∨ clean_int_to_boolean v = "否") ∧
      (∀ s : String, s ≠ "" → s ≠ "None" → clean_int_to_boolean (some s) = "是") ∧
      (∀ (r : Record) (row : Row), normalizeRow r = some row →
        (row.purchasable = "是" ∨ row.purchasable = "否") ∧
          (row.discount = "是" ∨ row.discount = "否")) := by
  have hrange : ∀ v : Option String,
      clean_int_to_boolean v = "是" ∨ clean_int_to_boolean v = "否" := by
    intro v
    match v with
    | none => exact Or.inr rfl
    | some s =>
      simp only [clean_int_to_boolean]
      by_cases h : s = "" ∨ s = "None"
      · rw [if_pos h]; exact Or.inr rfl
      · rw [if_neg h]; exact Or.inl rfl
  refine ⟨rfl, rfl, hrange, ?_, ?_⟩
  · intro s h1 h2
    simp [clean_int_to_boolean, h1, h2]
  · intro r row hrow
    simp only [normalizeRow] at hrow
    split at hrow
    · split at hrow
      · cases hrow
        exact ⟨hrange _, hrange _⟩
      · cases hrow
    · cases hrow

/-- C5 witness: the always-是 clause at "0" and the flag-range clause at a
concrete normalized record. -/
theorem claim_C5_witness :
    clean_int_to_boolean (some "0") = "是" ∧
      (∀ row : Row, normalizeRow [("基金代码", some "000001"), ("基金简称", some "A")] = some row →
        row.purchasable = "是" ∨ row.purchasable = "否") := by
  refine ⟨claim_C5.2.2.2.1 "0" (by decide) (by decide), ?_⟩
  intro row hrow
  exact (claim_C5.2.2.2.2 _ row hrow).1

/-- Sample input record: code 000001, name A, nothing else. -/
def firstInsertRecord : Record := [("基金代码", some "000001"), ("基金简称", some "A")]

/-- Same code as `firstInsertRecord` but name B and the key 单位净值
explicitly mapped to JSON null. -/
def nullNetValueRecord : Record :=
  [("基金代码", some "000001"), ("基金简称", some "B"), ("单位净值", none)]

/-- Same code as `firstInsertRecord`, name B, insertable. -/
def secondInsertRecord : Record := [("基金代码", some "000001"), ("基金简称", some "B")]

/-- The normalization of `secondInsertRecord`. -/
def secondInsertRow : Row :=
  { fund_code := "000001", fund_name := "B", fund_pinyin := none,
    update_date := none, unit_net_value := none, cum_net_value := none,
    daily_growth := none, week1 := none, month1 := none, month3 := none,
    month6 := none, year1 := none, year2 := none, year3 := none, ytd := none,
    since_founding := none, issue_date := none, purchasable := "否",
    custom2 := none, custom3 := none, fee := none, discount := "否",
    custom5 := none, custom6 := none }

/-- C1 counterexample: the claim quantifies over EVERY pair of records
with the same code, but when the second insert raises (here: 单位净值
explicitly null, the AttributeError of claim C10) it is absorbed and the
stored row keeps the fields of the FIRST record (name "A"), not the
normalization of the second (name "B"). -/
theorem claim_C1_counterexample :
    insert_fund_data nullNetValueRecord (insert_fund_data firstInsertRecord []) =
        insert_fund_data firstInsertRecord [] ∧
      (insert_fund_data firstInsertRecord []).map (fun w => w.fund_name) = ["A"] ∧
      recGet nullNetValueRecord "基金简称" = some "B" := by
  refine ⟨?_, rfl, rfl⟩
  have hn : normalizeRow nullNetValueRecord = none := by decide
  simp [insert_fund_data, hn]

/-- C1 (amended): for every pair of records with the same 基金代码,
PROVIDED the second insert_fund_data call does not raise (its record
normalizes to a row), the store afterwards holds exactly one row for that
code, every field of which is the normalization of the second record — full
replacement, never a field-level merge with the first record, whatever
the store held before. -/
theorem claim_C1 (r1 r2 : Record) (s : Store) (row2 : Row)
    (hcode : recGet r1 "基金代码" = recGet r2 "基金代码")
    (h2 : normalizeRow r2 = some row2) :
    (insert_fund_data r2 (insert_fund_data r1 s)).filter
        (fun w => w.fund_code == row2.fund_code) = [row2] := by
  simp only [insert_fund_data, h2, replaceByCode]
  have hnil : ∀ l : Store, List.filter (fun w => w.fund_code == row2.fund_code)
      (List.filter (fun w => w.fund_code != row2.fund_code) l) = [] := by
    intro l
    rw [List.filter_filter]
    apply List.filter_eq_nil_iff.mpr
    intro a _
    cases h : a.fund_code == row2.fund_code <;> simp [bne, h]
  rw [List.filter_append, hnil]
  simp

/-- C1 witness: inserting code 000001 with name A, then the insertable
record with name B, leaves exactly the normalized B row for that code. -/
theorem claim_C1_witness :
    (insert_fund_data secondInsertRecord (insert_fund_data firstInsertRecord [])).filter
        (fun w => w.fund_code == secondInsertRow.fund_code) = [secondInsertRow] :=
  claim_C1 firstInsertRecord secondInsertRecord [] secondInsertRow (by decide) (by decide)

/-- C6: whenever building or executing the INSERT raises (the record does
not normalize to a row), `insert_fund_data` rolls back — the store is
unchanged — logs the error together with the offending record (问题数据),
and returns normally instead of propagating the exception. -/
theorem claim_C6 (r : Record) (s : Store) (h : normalizeRow r = none) :
    insert_fund_data r s = s ∧ LogEntry.failure r ∈ insert_fund_logs r := by
  constructor
  · simp [insert_fund_data, h]
  · simp [insert_fund_logs, h]

/-- C6 witness: a record with no 基金代码 key (the NOT NULL bind fails)
leaves the empty store empty and logs the failure. -/
theorem claim_C6_witness :
    insert_fund_data [("基金简称", some "X")] [] = [] ∧
      LogEntry.failure [("基金简称", some "X")] ∈
        insert_fund_logs [("基金简称", some "X")] :=
  claim_C6 [("基金简称", some "X")] [] (by decide)

/-- C10: a record that maps 单位净值 (or 累计净值) explicitly to null —
as opposed to omitting the key, where the default "" applies — makes the
`.replace` call raise; the handler absorbs it, the record is logged as
问题数据, and no row is written even when every other field is valid. -/
theorem claim_C10 (r : Record) (s : Store)
    (h : List.lookup "单位净值" r = some none ∨ List.lookup "累计净值" r = some none) :
    insert_fund_data r s = s ∧ LogEntry.failure r ∈ insert_fund_logs r := by
  have hn : normalizeRow r = none := by
    rcases h with h | h
    · have h1 : recGetD r "单位净值" "" = none := by simp [recGetD, h]
      simp [normalizeRow, h1]
    · have h1 : recGetD r "累计净值" "" = none := by simp [recGetD, h]
      cases hx : recGetD r "单位净值" "" <;> simp [normalizeRow, hx, h1]
  exact ⟨by simp [insert_fund_data, hn], by simp [insert_fund_logs, hn]⟩

/-- C10 witness: every other field of the record is present and valid,
only 单位净值 is explicitly null; the insert writes nothing. -/
theorem claim_C10_witness :
    insert_fund_data
        [("基金代码", some "000001"), ("基金简称", some "X"), ("单位净值", none),
          ("累计净值", some "1.0"), ("日增长率", some "1.5%")] [] = [] ∧
      LogEntry.failure
          [("基金代码", some "000001"), ("基金简称", some "X"), ("单位净值", none),
            ("累计净值", some "1.0"), ("日增长率", some "1.5%")] ∈
        insert_fund_logs
          [("基金代码", some "000001"), ("基金简称", some "X"), ("单位净值", none),
            ("累计净值", some "1.0"), ("日增长率", some "1.5%")] :=
  claim_C10 _ [] (Or.inl rfl)

/-- C3 counterexample: a file whose FIRST line is malformed JSON followed
by two valid lines stores zero records, not two — `json.loads` is outside
any try/except, so its exception aborts the whole load loop. -/
theorem claim_C3_counterexample :
    runLoad [none, some firstInsertRecord, some secondInsertRecord] [] = ([], false) :=
  rfl

/-- C3 (amended): per-record INSERT failures never abort the bulk load —
a file of any parsable lines always runs to the end of the file — but a
line on which `json.loads` raises stops the loop at that line, keeping
only the records stored before it. -/
theorem claim_C3 :
    (∀ (rs : List Record) (s : Store), (runLoad (rs.map some) s).2 = true) ∧
      (∀ (tail2 : List (Option Record)) (s : Store), runLoad (none :: tail2) s = (s, false)) := by
  constructor
  · intro rs
    induction rs with
    | nil => intro s; rfl
    | cons r more ih => intro s; exact ih (insert_fund_data r s)
  · intro tail2 s
    rfl

/-- Every executed statement is a chunk of the split, in order, whatever
the statement outcomes were. -/
theorem runStatements_statements {σ : Type} (step : σ → String → StmtResult × σ) :
    ∀ (stmts : List String) (s : σ),
      ((runStatements step stmts s).1).map Prod.fst = stmts := by
  intro stmts
  induction stmts with
  | nil => intro s; rfl
  | cons stmt more ih =>
    intro s
    simp [runStatements, ih]

/-- The splitting fold never returns an empty chunk list. -/
theorem pySplitStep_ne_nil (c : Char) (acc : List (List Char)) :
    pySplitStep c acc ≠ [] := by
  unfold pySplitStep
  split
  · exact List.cons_ne_nil _ _
  · match acc with
    | [] => exact List.cons_ne_nil _ _
    | a :: more => exact List.cons_ne_nil _ _

/-- The semicolon split always yields at least one chunk. -/
theorem pySplitSemi_ne_nil (l : List Char) : pySplitSemi l ≠ [] := by
  cases l with
  | nil => exact List.cons_ne_nil _ _
  | cons c rest => exact pySplitStep_ne_nil c (pySplitSemi rest)

/-- No chunk produced by splitting on the semicolon contains a semicolon. -/
theorem no_semi_mem_pySplitSemi :
    ∀ (l : List Char) (a : List Char), a ∈ pySplitSemi l → ';' ∉ a := by
  intro l
  induction l with
  | nil =>
    intro a ha
    simp only [pySplitSemi, List.foldr] at ha
    simp only [List.mem_singleton] at ha
    subst ha
    simp
  | cons c rest ih =>
    intro a ha
    have hstep : pySplitSemi (c :: rest) = pySplitStep c (pySplitSemi rest) := rfl
    rw [hstep] at ha
    unfold pySplitStep at ha
    by_cases hc : c = ';'
    · rw [if_pos hc] at ha
      rcases List.mem_cons.mp ha with h | h
      · subst h; simp
      · exact ih a h
    · rw [if_neg hc] at ha
      cases hprev : pySplitSemi rest with
      | nil => exact absurd hprev (pySplitSemi_ne_nil rest)
      | cons b more =>
        rw [hprev] at ha
        rcases List.mem_cons.mp ha with h | h
        · subst h
          intro hmem
          rcases List.mem_cons.mp hmem with h2 | h2
          · exact hc h2.symm
          · exact ih b (by rw [hprev]; exact List.mem_cons_self b more) h2
        · exact ih a (by rw [hprev]; exact List.mem_cons_of_mem b h)

/-- Members survive `dropWhile` backwards. -/
theorem mem_of_mem_dropWhile {α : Type} (p : α → Bool) :
    ∀ (l : List α) (a : α), a ∈ l.dropWhile p → a ∈ l := by
  intro l
  induction l with
  | nil => intro a h; simp [List.dropWhile] at h
  | cons x xs ih =>
    intro a h
    rw [List.dropWhile_cons] at h
    split at h
    · exact List.mem_cons_of_mem x (ih a h)
    · exact h

/-- Stripping only removes characters. -/
theorem mem_of_mem_trimWS (l : List Char) (a : Char) (h : a ∈ trimWS l) : a ∈ l := by
  unfold trimWS at h
  rw [List.mem_reverse] at h
  have h2 := mem_of_mem_dropWhile isSpaceChar _ a h
  rw [List.mem_reverse] at h2
  exact mem_of_mem_dropWhile isSpaceChar _ a h2

/-- No statement handed to `cursor.execute` contains a semicolon. -/
theorem no_semi_splitStatements (q stmt : String) (h : stmt ∈ splitStatements q) :
    ';' ∉ stmt.toList := by
  unfold splitStatements at h
  rcases List.mem_map.mp h with ⟨l, hl, rfl⟩
  have hl2 := (List.mem_filter.mp hl).1
  rcases List.mem_map.mp hl2 with ⟨l0, hl0, rfl⟩
  intro hc
  have hmem : ';' ∈ trimWS l0 := hc
  exact no_semi_mem_pySplitSemi _ _ hl0 (mem_of_mem_trimWS l0 ';' hmem)

/-- The query of the spec example for C2. -/
def exampleQuery : String := "SELECT 1; SELECT bogus_column FROM no_such_table"

/-- A concrete engine for the C2 example, behaving as SQLite does on the
two statements of `exampleQuery`: `SELECT 1` yields a one-column,
one-row result set, the second statement raises "no such table". -/
def exampleEngineStep : Unit → String → StmtResult × Unit := fun _ stmt =>
  (if stmt = "SELECT 1" then StmtResult.resultSet ["1"] [[some "1"]]
   else StmtResult.failed "no such table: no_such_table", ())

/-- C2: `execute_sql_internal` splits its query on the semicolon and runs
every resulting statement in order against any engine — a failing
statement never prevents the later ones from running; each failing
statement contributes exactly the inline error segment; the per-statement
segments are joined with the separator into one combined text, returned
(never raised) as a one-element list.  On the example query the result is
the one-row CSV "1\n1" joined by --- with the inline error segment. -/
theorem claim_C2 :
    (∀ (σ : Type) (step : σ → String → StmtResult × σ) (q : String) (s : σ),
        (execute_sql_internal step q s).1 =
          [String.intercalate "\n---\n"
            ((runStatements step (splitStatements q) s).1.map
              (fun p => segmentOf p.1 p.2))] ∧
        ((runStatements step (splitStatements q) s).1).map Prod.fst =
          splitStatements q) ∧
      (∀ (stmt msg : String),
        segmentOf stmt (StmtResult.failed msg) =
          "执行语句 \x27" ++ stmt ++ "\x27 出错: " ++ msg) ∧
      (execute_sql_internal exampleEngineStep exampleQuery ()).1 =
        ["1\n1" ++ "\n---\n" ++
          "执行语句 \x27SELECT bogus_column FROM no_such_table\x27 出错: no such table: no_such_table"] := by
  refine ⟨fun σ step q s => ⟨rfl, runStatements_statements step (splitStatements q) s⟩,
    fun stmt msg => rfl, ?_⟩
  decide

/-- The C9 example: a single INSERT statement carrying a semicolon inside
a SQL string literal. -/
def quotedSemiQuery : String := "INSERT INTO 基金数据 (基金代码) VALUES (\x27a;b\x27)"

/-- C9: the split has no awareness of SQL quoting — no executed statement
ever contains a semicolon, so a statement with a semicolon inside a
string literal is cut into fragments that are executed separately and the
statement as written is never executed. -/
theorem claim_C9 :
    (∀ (q stmt : String), stmt ∈ splitStatements q → ';' ∉ stmt.toList) ∧
      splitStatements quotedSemiQuery =
        ["INSERT INTO 基金数据 (基金代码) VALUES (\x27a", "b\x27)"] ∧
      quotedSemiQuery ∉ splitStatements quotedSemiQuery := by
  refine ⟨no_semi_splitStatements, by decide, by decide⟩

/-- C9 witness: the no-semicolon clause applied to the first fragment of
the example query. -/
theorem claim_C9_witness :
    ';' ∉ ("INSERT INTO 基金数据 (基金代码) VALUES (\x27a" : String).toList :=
  claim_C9.1 quotedSemiQuery "INSERT INTO 基金数据 (基金代码) VALUES (\x27a" (by decide)

/-- The percent-only pattern: equation for the percent head of a pattern. -/
theorem likeMatch_percent (p : List Char) (t : List Char) :
    likeMatch ('%' :: p) t = t.tails.any (fun t2 => likeMatch p t2) := rfl

/-- A pattern consisting only of percent signs matches the empty text. -/
theorem likeMatch_allPercent_nil :
    ∀ p : List Char, (∀ c ∈ p, c = '%') → likeMatch p [] = true := by
  intro p
  induction p with
  | nil => intro _; rfl
  | cons c p2 ih =>
    intro hall
    have hc : c = '%' := hall c (List.mem_cons_self c p2)
    subst hc
    rw [likeMatch_percent]
    have htails : ([] : List Char).tails = [[]] := by simp [List.tails]
    rw [htails]
    simp only [List.any_cons, List.any_nil, Bool.or_false]
    exact ih (fun c hc => hall c (List.mem_cons_of_mem _ hc))

/-- A nonempty pattern consisting only of percent signs matches every
text. -/
theorem likeMatch_allPercent :
    ∀ (p : List Char), p ≠ [] → (∀ c ∈ p, c = '%') →
      ∀ t : List Char, likeMatch p t = true := by
  intro p hne hall t
  induction t with
  | nil => exact likeMatch_allPercent_nil p hall
  | cons d t2 ih =>
    cases p with
    | nil => exact absurd rfl hne
    | cons c p2 =>
      have hc : c = '%' := hall c (List.mem_cons_self c p2)
      subst hc
      rw [likeMatch_percent] at ih ⊢
      rw [List.tails_cons]
      simp only [List.any_cons]
      rw [ih]
      simp

/-- With the keyword "%" the built pattern is percent-only, so every
non-null column value satisfies the LIKE condition. -/
theorem sqlLike_percent_keyword (v : String) :
    sqlLike (some v) (likePattern "%") = true := by
  show likeMatch (likePattern "%").toList v.toList = true
  have hp : (likePattern "%").toList = ['%', '%', '%'] := by decide
  rw [hp]
  exact likeMatch_allPercent ['%', '%', '%'] (by simp) (by decide) v.toList

/-- A row whose fields contain no underscore at all, used to show that an
underscore keyword is treated as a wildcard rather than a literal. -/
def underscoreFreeRow : Row :=
  { fund_code := "000001", fund_name := "AB", fund_pinyin := none,
    update_date := none, unit_net_value := none, cum_net_value := none,
    daily_growth := none, week1 := none, month1 := none, month3 := none,
    month6 := none, year1 := none, year2 := none, year3 := none, ytd := none,
    since_founding := none, issue_date := none, purchasable := "否",
    custom2 := none, custom3 := none, fee := none, discount := "否",
    custom5 := none, custom6 := none }

/-- C8: the keyword is spliced unescaped into a percent-delimited LIKE
pattern, so LIKE metacharacters act as wildcards: with keyword "%" the
fuzzy search returns the WHOLE table (every matched column that the
schema can leave null is irrelevant because 基金代码 and 基金简称 are NOT
NULL and match), ordered by code, and likewise the keyword branch of
`query_fund_data`; and a record matching keyword "_" need not contain any
underscore. -/
theorem claim_C8 :
    (∀ s : Store, fuzzy_search_funds "%" s = (sortByCode s).map projSearch) ∧
      (∀ s : Store, query_fund_data_keyword "%" s = sortByCode s) ∧
      fuzzyMatches "_" underscoreFreeRow = true ∧
      ('_' ∉ underscoreFreeRow.fund_code.toList ∧
        '_' ∉ underscoreFreeRow.fund_name.toList) := by
  refine ⟨?_, ?_, by decide, by decide⟩
  · intro s
    unfold fuzzy_search_funds
    have hf : s.filter (fuzzyMatches "%") = s := by
      apply List.filter_eq_self.mpr
      intro row _
      unfold fuzzyMatches
      rw [sqlLike_percent_keyword row.fund_name]
      simp
    rw [hf]
  · intro s
    unfold query_fund_data_keyword
    have hf : s.filter (fun row => sqlLike (some row.fund_name) (likePattern "%")) = s := by
      apply List.filter_eq_self.mpr
      intro row _
      exact sqlLike_percent_keyword row.fund_name
    rw [hf]

/-- An input record whose 日增长率 and 单位净值 are ordinary percentage /
net-value strings, exactly as the bulk loader stores them. -/
def growthTextRecord : Record :=
  [("基金代码", some "000001"), ("基金简称", some "华夏成长"),
    ("单位净值", some "1.2345"), ("日增长率", some "1.5%")]

/-- The row the store holds after inserting `growthTextRecord`: the two
display-relevant columns contain TEXT, not numbers. -/
def growthTextRow : Row :=
  { fund_code := "000001", fund_name := "华夏成长", fund_pinyin := none,
    update_date := none, unit_net_value := some "1.2345",
    cum_net_value := none, daily_growth := some "1.5%", week1 := none,
    month1 := none, month3 := none, month6 := none, year1 := none,
    year2 := none, year3 := none, ytd := none, since_founding := none,
    issue_date := none, purchasable := "否", custom2 := none,
    custom3 := none, fee := none, discount := "否", custom5 := none,
    custom6 := none }

/-- A search row with both display values NULL. -/
def nullValueSearchRow : SearchRow :=
  { fund_code := "000001", fund_name := "B", fund_pinyin := none,
    unit_net_value := none, daily_growth := none }

/-- A search row with NULL values and a 35-character name. -/
def longNameSearchRow : SearchRow :=
  { fund_code := "000001", fund_name := "AAAAAAAAAAAAAAAAAAAAAAAAAAAAAAAAAAA", fund_pinyin := none,
    unit_net_value := none, daily_growth := none }

/-- C7, settled against the code as a code bug: `display_search_results`
formats the values read back from the TEXT columns 日增长率 / 单位净值
with the numeric format specs `.2%` / `.4f`, but those values are Python
strings whenever they are non-null, and CPython raises `ValueError` for a
numeric format code applied to a `str`.  The claim (render percentages
and net values, placeholders for null, truncation, "without error for
every row the store can contain") therefore fails on every storable row
with a non-null 日增长率 or 单位净值 — first conjuncts — while the
null-value placeholder path and the name truncation do work — last
conjuncts. -/
theorem claim_C7 :
    normalizeRow growthTextRecord = some growthTextRow ∧
      display_search_results [projSearch growthTextRow] =
        Except.error "Unknown format code \x27%\x27 for object of type \x27str\x27" ∧
      (display_search_results [nullValueSearchRow]).isOk = true ∧
      searchResultLine longNameSearchRow =
        Except.ok (pyLjust "000001" 10 ++ " " ++
          pyLjust "AAAAAAAAAAAAAAAAAAAAAAAAAAAA..." 30 ++ " " ++
          pyLjust "N/A" 10 ++ " " ++ pyLjust "N/A" 10) := by
  refine ⟨by decide, rfl, rfl, rfl⟩
